import Mathlib

/-!
Verification development for the metric-aggregation engine of the
ECE-30861-Phase2-24 repository.

Shallow embedding notes:
* Python floats are modelled as exact rationals (ℚ); Python ints as ℤ.
* `round(x, 2)` is modelled as round-half-to-even at two decimal places
  (`roundHalfEven`, `round2`).
* Wall-clock measurements (`time.perf_counter`, `time.perf_counter_ns`) are
  abstracted: every latency that the code measures from the clock becomes an
  explicit integer parameter of the embedded function.
* A Python `dict` built by string-keyed assignment is modelled as an
  association list with Python's insertion-order semantics (`dset`, `dget`).
* An `async` metric function, as observed by `run_metrics` after
  `asyncio.gather(..., return_exceptions=True)`, is modelled by its outcome:
  either `TaskOutcome.ok score latency` or `TaskOutcome.exn` (the task raised
  past its boundary).  The types of the scores follow the MetricResult
  contract of the spec (numbers for scalar metrics, strings for
  name/category, a four-device mapping for size_score).
-/

/-- The four-device size-score mapping (`SizeScore` TypedDict in
src/src/metrics.py, lines 38-42). -/
structure SizeScore where
  raspberry_pi : ℚ
  jetson_nano : ℚ
  desktop_pc : ℚ
  aws_server : ℚ
deriving DecidableEq

/-- A Python value as stored in the `metric_scores` dictionary of
`run_metrics` (a float, an int, a string, or the size-score mapping). -/
inductive PyVal where
  | num (q : ℚ)
  | intv (z : ℤ)
  | str (s : String)
  | size (d : SizeScore)
deriving DecidableEq

/-- Python dictionary with string keys, as an insertion-ordered
association list. -/
abbrev PyDict := List (String × PyVal)

/-- Python dict assignment `d[k] = v`: update in place if the key exists
(keeping its position), otherwise append at the end. -/
def dset : PyDict → String → PyVal → PyDict
  | [], k, v => [(k, v)]
  | (k1, v1) :: rest, k, v =>
      if k1 = k then (k1, v) :: rest else (k1, v1) :: dset rest k v

/-- Python `d.get(k)`: the stored value, if the key is present. -/
def dget : PyDict → String → Option PyVal
  | [], _ => none
  | (k1, v1) :: rest, k => if k1 = k then some v1 else dget rest k

/-- Round-half-to-even of a rational to an integer; this is the rounding
Python's builtin `round` applies. -/
def roundHalfEven (y : ℚ) : ℤ :=
  if y - ⌊y⌋ < 1 / 2 then ⌊y⌋
  else if y - ⌊y⌋ > 1 / 2 then ⌊y⌋ + 1
  else if ⌊y⌋ % 2 = 0 then ⌊y⌋ else ⌊y⌋ + 1

/-- Python `round(x, 2)`: round to two decimal places, half to even. -/
def round2 (x : ℚ) : ℚ := (roundHalfEven (x * 100) : ℚ) / 100

/-! ## src/src/netscore.py -/

namespace Netscore

/-- Weights for each metric contributing to the net score
(src/src/netscore.py, lines 10-19, in source order). -/
def WEIGHTS : List (String × ℚ) :=
  [("license", 18 / 100),
   ("ramp_up_time", 15 / 100),
   ("bus_factor", 12 / 100),
   ("performance_claims", 10 / 100),
   ("dataset_and_code_score", 15 / 100),
   ("dataset_quality", 10 / 100),
   ("code_quality", 10 / 100),
   ("size_score", 10 / 100)]

/-- Clamp a value into the `[bottom, top]` range (src/src/netscore.py,
`bounds`, lines 22-38; the source defaults are bottom = 0.0, top = 1.0). -/
def bounds (x bottom top : ℚ) : ℚ :=
  if x < bottom then bottom
  else if x > top then top
  else x

/-- Python `metrics.get(key, d)` on the reducer input mapping. -/
def mget (m : List (String × ℚ)) (k : String) (d : ℚ) : ℚ :=
  match m with
  | [] => d
  | (k1, v1) :: rest => if k1 = k then v1 else mget rest k d

/-- The net-score value computed by `compute` (src/src/netscore.py, lines
62-71): weighted sum over `WEIGHTS` of the clamped metric values (missing
metrics default to 0.0), clamped to [0,1] and rounded to 2 decimals. -/
def computeScore (metrics : List (String × ℚ)) : ℚ :=
  round2
    (bounds
      (WEIGHTS.foldl (fun net p => net + p.2 * bounds (mget metrics p.1 0) 0 1) 0)
      0 1)

/-- `compute` (src/src/netscore.py, lines 41-76) returns the pair
`(net_score, latency_ms)`.  The latency is measured from the wall clock in
the source; it is abstracted here as the parameter `latency_ms`. -/
def compute (metrics : List (String × ℚ)) (latency_ms : ℤ) : ℚ × ℤ :=
  (computeScore metrics, latency_ms)

end Netscore

/-! ## src/src/metrics.py -/

namespace Metrics

/-- Sentinel error value (src/src/metrics.py, line 21). -/
def ERROR_VALUE : ℚ := -1

/-- The outcome of one metric task as observed by `run_metrics` after
`asyncio.gather(..., return_exceptions=True)` (line 127): either the pair
`(score, latency)` the coroutine returned, or `exn` when it raised past its
boundary (in which case `gather` hands back the exception object). -/
inductive TaskOutcome (α : Type) where
  | ok (score : α) (latency : ℤ)
  | exn
deriving DecidableEq

/-- Inject the typed score of an outcome into `PyVal`. -/
def TaskOutcome.toPy {α : Type} : TaskOutcome α → (α → PyVal) → TaskOutcome PyVal
  | .ok s l, f => .ok (f s) l
  | .exn, _ => .exn

/-- The outcomes of the ten enabled metric coroutines of one `run_metrics`
pass, typed per the MetricResult contract (spec section 3): strings for
`name`/`category`, the four-device mapping for `size_score`, numbers for
every other metric.  Field order matches the `metric_funcs` list
(src/src/metrics.py, lines 105-116). -/
structure MetricOutcomes where
  name : TaskOutcome String
  category : TaskOutcome String
  code_quality : TaskOutcome ℚ
  performance_claims : TaskOutcome ℚ
  bus_factor : TaskOutcome ℚ
  size_score : TaskOutcome SizeScore
  ramp_up_time : TaskOutcome ℚ
  license : TaskOutcome ℚ
  dataset_quality : TaskOutcome ℚ
  dataset_and_code_score : TaskOutcome ℚ
deriving DecidableEq

/-- The list `zip(task_names, results)` iterated by the resolve loop
(src/src/metrics.py, line 133), in `metric_funcs` order. -/
def gatherResults (o : MetricOutcomes) : List (String × TaskOutcome PyVal) :=
  [("name", o.name.toPy PyVal.str),
   ("category", o.category.toPy PyVal.str),
   ("code_quality", o.code_quality.toPy PyVal.num),
   ("performance_claims", o.performance_claims.toPy PyVal.num),
   ("bus_factor", o.bus_factor.toPy PyVal.num),
   ("size_score", o.size_score.toPy PyVal.size),
   ("ramp_up_time", o.ramp_up_time.toPy PyVal.num),
   ("license", o.license.toPy PyVal.num),
   ("dataset_quality", o.dataset_quality.toPy PyVal.num),
   ("dataset_and_code_score", o.dataset_and_code_score.toPy PyVal.num)]

/-- The all-sentinel size-score fallback used both for a failed size metric
(lines 144-149) and as the assembly default (lines 227-232). -/
def default_size_score : SizeScore := ⟨ERROR_VALUE, ERROR_VALUE, ERROR_VALUE, ERROR_VALUE⟩

/-- One iteration of the resolve loop (src/src/metrics.py, lines 133-169):
boundary failures get the documented per-metric fallback, successes are
stored verbatim together with their latency. -/
def resolveOne (metric_scores : PyDict) (metric_name : String)
    (result : TaskOutcome PyVal) : PyDict :=
  match result with
  | .exn =>
      if metric_name = "name" then dset metric_scores "name" (.str "")
      else if metric_name = "category" then dset metric_scores "category" (.str "MODEL")
      else if metric_name = "size_score" then
        dset (dset metric_scores "size_score" (.size default_size_score))
          "size_score_latency" (.intv 0)
      else
        dset (dset metric_scores metric_name (.num ERROR_VALUE))
          (metric_name ++ "_latency") (.intv 0)
  | .ok score latency =>
      if metric_name = "name" ∨ metric_name = "category" then
        dset metric_scores metric_name score
      else if metric_name = "size_score" then
        dset (dset metric_scores "size_score" score) "size_score_latency" (.intv latency)
      else
        dset (dset metric_scores metric_name score)
          (metric_name ++ "_latency") (.intv latency)

/-- The resolve loop folded over the gathered results. -/
def resolveList : PyDict → List (String × TaskOutcome PyVal) → PyDict
  | metric_scores, [] => metric_scores
  | metric_scores, (metric_name, result) :: rest =>
      resolveList (resolveOne metric_scores metric_name result) rest

/-- The `metric_scores` dictionary after the whole resolve loop. -/
def resolveAll (o : MetricOutcomes) : PyDict :=
  resolveList [] (gatherResults o)

/-- Python `int()` applied to a number: truncation toward zero. -/
def truncQ (q : ℚ) : ℤ := if 0 ≤ q then ⌊q⌋ else -⌊-q⌋

/-- Python `float(v)` on a dictionary value.  `none` models the call
raising.  Parsing of numeric strings is not modelled: under the section 4.1
contract a numeric slot never holds a string. -/
def pyFloat : PyVal → Option ℚ
  | .num q => some q
  | .intv z => some (z : ℚ)
  | .str _ => none
  | .size _ => none

/-- Python `int(v)` on a dictionary value; `none` models the call raising. -/
def pyInt : PyVal → Option ℤ
  | .num q => some (truncQ q)
  | .intv z => some z
  | .str _ => none
  | .size _ => none

/-- Python `str(v)`.  Only the string case is ever reached (the `name` slot
always holds a string); the rendering of other values is not modelled. -/
def pyStr : PyVal → String
  | .str s => s
  | _ => ""

/-- The NDJSON output schema for MODEL lines (`GradeResult` TypedDict,
src/src/metrics.py, lines 45-65), fields in schema order. -/
structure GradeResult where
  name : String
  category : String
  net_score : ℚ
  net_score_latency : ℤ
  ramp_up_time : ℚ
  ramp_up_time_latency : ℤ
  bus_factor : ℚ
  bus_factor_latency : ℤ
  performance_claims : ℚ
  performance_claims_latency : ℤ
  license : ℚ
  license_latency : ℤ
  size_score : SizeScore
  size_score_latency : ℤ
  dataset_and_code_score : ℚ
  dataset_and_code_score_latency : ℤ
  dataset_quality : ℚ
  dataset_quality_latency : ℤ
  code_quality : ℚ
  code_quality_latency : ℤ
deriving DecidableEq

/-- `metric_scores.get(k, ERROR_VALUE)` followed by `float(...)`, as used
throughout the assembly step (src/src/metrics.py, lines 207-250).  `none`
models the `float()` call raising. -/
def getFloatD (m : PyDict) (k : String) : Option ℚ :=
  pyFloat ((dget m k).getD (.num ERROR_VALUE))

/-- `metric_scores.get(k, 0)` followed by `int(...)`, as used throughout
the assembly step.  `none` models the `int()` call raising. -/
def getIntD (m : PyDict) (k : String) : Option ℤ :=
  pyInt ((dget m k).getD (.intv 0))

/-- Whether every `float()`/`int()` cast performed by the assembly step
(src/src/metrics.py, lines 195-250) succeeds.  In the source a failing cast
raises out of `run_metrics`; here `assemble` returns `none` in that case. -/
def assembleOk (m : PyDict) : Bool :=
  (getFloatD m "net_score").isSome && (getIntD m "net_score_latency").isSome &&
  (getFloatD m "ramp_up_time").isSome && (getIntD m "ramp_up_time_latency").isSome &&
  (getFloatD m "bus_factor").isSome && (getIntD m "bus_factor_latency").isSome &&
  (getFloatD m "performance_claims").isSome && (getIntD m "performance_claims_latency").isSome &&
  (getFloatD m "license").isSome && (getIntD m "license_latency").isSome &&
  (getIntD m "size_score_latency").isSome &&
  (getFloatD m "dataset_and_code_score").isSome && (getIntD m "dataset_and_code_score_latency").isSome &&
  (getIntD m "dataset_quality_latency").isSome && (getIntD m "code_quality_latency").isSome &&
  (getFloatD m "dataset_quality").isSome && (getFloatD m "code_quality").isSome

/-- The GradeResult assembled in the fixed field order (src/src/metrics.py,
lines 195-278).  Each field is the corresponding cast value; the `.getD`
junk defaults are never used when `assembleOk` holds.  For `category` the
source keeps the stored value when it is a string and falls back to the
literal "MODEL" otherwise; for `size_score` the source applies a no-op
`cast(...)` to the stored mapping (the slot always holds a mapping, so the
default branch mirrors the `metric_scores.get` default of lines 233-235). -/
def assembleFields (m : PyDict) : GradeResult :=
  { name := pyStr ((dget m "name").getD (.str ""))
    category := match dget m "category" with
      | some (.str s) => s
      | _ => "MODEL"
    net_score := (getFloatD m "net_score").getD 0
    net_score_latency := (getIntD m "net_score_latency").getD 0
    ramp_up_time := (getFloatD m "ramp_up_time").getD 0
    ramp_up_time_latency := (getIntD m "ramp_up_time_latency").getD 0
    bus_factor := (getFloatD m "bus_factor").getD 0
    bus_factor_latency := (getIntD m "bus_factor_latency").getD 0
    performance_claims := (getFloatD m "performance_claims").getD 0
    performance_claims_latency := (getIntD m "performance_claims_latency").getD 0
    license := (getFloatD m "license").getD 0
    license_latency := (getIntD m "license_latency").getD 0
    size_score := match dget m "size_score" with
      | some (.size d) => d
      | _ => default_size_score
    size_score_latency := (getIntD m "size_score_latency").getD 0
    dataset_and_code_score := (getFloatD m "dataset_and_code_score").getD 0
    dataset_and_code_score_latency := (getIntD m "dataset_and_code_score_latency").getD 0
    dataset_quality := (getFloatD m "dataset_quality").getD 0
    dataset_quality_latency := (getIntD m "dataset_quality_latency").getD 0
    code_quality := (getFloatD m "code_quality").getD 0
    code_quality_latency := (getIntD m "code_quality_latency").getD 0 }

/-- Final assembly of the GradeResult (src/src/metrics.py, lines 195-278):
safe defaults and casts for every field, in the fixed order.  `none` models
one of the `float()`/`int()` casts raising out of `run_metrics`. -/
def assemble (m : PyDict) : Option GradeResult :=
  if assembleOk m then some (assembleFields m) else none

/-- `UrlInfo` (src/src/metrics.py, lines 26-33): a discovered URL for one
category; the `url` field may be absent. -/
structure UrlInfo where
  url : Option String

/-- The `urls` mapping passed to `run_metrics`: at most one `UrlInfo` for
each of the MODEL, DATASET and CODE categories (the `UrlCategory` enum
lives in the repository's `utils` module, outside src/; only its three
category slots matter here). -/
structure UrlMap where
  model : Option UrlInfo
  dataset : Option UrlInfo
  code : Option UrlInfo

/-- `urls.get(category, {}).get("url", "")` (src/src/metrics.py, lines
94-100): missing slots resolve to the empty string. -/
def urlString (i : Option UrlInfo) : String := ((i.getD ⟨none⟩).url).getD ""

/-- The derived override (src/src/metrics.py, lines 173-177): recompute
`dataset_and_code_score` as the arithmetic mean of the resolved
`dataset_quality` and `code_quality` values, both coerced with `float()`
(default `ERROR_VALUE` when absent).  `none` models a raising cast. -/
def overriddenScores (o : MetricOutcomes) : Option PyDict :=
  match pyFloat ((dget (resolveAll o) "dataset_quality").getD (.num ERROR_VALUE)),
        pyFloat ((dget (resolveAll o) "code_quality").getD (.num ERROR_VALUE)) with
  | some dataset_quality_val, some code_quality_val =>
      some (dset (resolveAll o) "dataset_and_code_score"
        (.num ((dataset_quality_val + code_quality_val) / 2)))
  | _, _ => none

/-- Whether the character list `pat` starts the character list `s`. -/
def isPrefixL : List Char → List Char → Bool
  | [], _ => true
  | _ :: _, [] => false
  | a :: ps, b :: ss => a == b && isPrefixL ps ss

/-- Python `s.endswith(t)`: whether `t` is a suffix of `s`. -/
def pyEndsWith (s t : String) : Bool :=
  isPrefixL t.data.reverse s.data.reverse

/-- Build the reducer input (src/src/metrics.py, lines 179-188): every
entry of `metric_scores` that is not a latency key, not
`name`/`category`/`size_score`, and is numeric, coerced to float, in
dictionary order. -/
def net_score_input (metric_scores : PyDict) : List (String × ℚ) :=
  metric_scores.filterMap fun p =>
    if pyEndsWith p.1 "_latency" then none
    else if p.1 = "name" ∨ p.1 = "category" ∨ p.1 = "size_score" then none
    else match p.2 with
      | .num q => some (p.1, q)
      | .intv z => some (p.1, (z : ℚ))
      | _ => none

/-- Steps 7 and 8 of the engine (src/src/metrics.py, lines 190-278): invoke
the reducer, discard the reducer's own latency, store the batch-total
wall-clock time as `net_score_latency`, and assemble the GradeResult.
`total_time_ms` abstracts `int((time.perf_counter() - start_time) * 1000)`
measured at line 191; `reducer_latency_ms` abstracts the latency the
reducer measures internally (bound to `_net_latency` and discarded). -/
def finishUp (scores1 : PyDict) (total_time_ms reducer_latency_ms : ℤ) : Option GradeResult :=
  assemble
    (dset
      (dset scores1 "net_score"
        (.num (Netscore.compute (net_score_input scores1) reducer_latency_ms).1))
      "net_score_latency" (.intv total_time_ms))

/-- `run_metrics` (src/src/metrics.py, lines 72-278).  `B` abstracts the
ten metric coroutines: applied to the three extracted URL strings (model,
code, dataset — the argument order of every metric call at line 121), it
yields the settled outcome of each task.  The result is `none` exactly when
the engine itself would raise. -/
def run_metrics (urls : UrlMap) (B : String → String → String → MetricOutcomes)
    (total_time_ms reducer_latency_ms : ℤ) : Option GradeResult :=
  (overriddenScores
      (B (urlString urls.model) (urlString urls.code) (urlString urls.dataset))).bind
    fun scores1 => finishUp scores1 total_time_ms reducer_latency_ms

/-- The numeric value a scalar metric resolves to in the ScoreRecord: the
returned score on success, the sentinel on boundary failure. -/
def resolvedNum : TaskOutcome ℚ → ℚ
  | .ok s _ => s
  | .exn => ERROR_VALUE

/-- The latency a metric resolves to: the returned latency on success, 0 on
boundary failure. -/
def resolvedLat {α : Type} : TaskOutcome α → ℤ
  | .ok _ l => l
  | .exn => 0

/-- The string a string-valued metric resolves to, with its documented
fallback. -/
def resolvedStr (fallback : String) : TaskOutcome String → String
  | .ok s _ => s
  | .exn => fallback

/-- The mapping the size metric resolves to: the returned mapping on
success, the all-sentinel mapping on boundary failure. -/
def resolvedSize : TaskOutcome SizeScore → SizeScore
  | .ok s _ => s
  | .exn => default_size_score

/-- Explicit form of the `metric_scores` dictionary after the resolve loop:
the eighteen keys, in insertion order, with outcome-dependent values. -/
def mScores (o : MetricOutcomes) : PyDict :=
  [("name", .str (resolvedStr "" o.name)),
   ("category", .str (resolvedStr "MODEL" o.category)),
   ("code_quality", .num (resolvedNum o.code_quality)),
   ("code_quality_latency", .intv (resolvedLat o.code_quality)),
   ("performance_claims", .num (resolvedNum o.performance_claims)),
   ("performance_claims_latency", .intv (resolvedLat o.performance_claims)),
   ("bus_factor", .num (resolvedNum o.bus_factor)),
   ("bus_factor_latency", .intv (resolvedLat o.bus_factor)),
   ("size_score", .size (resolvedSize o.size_score)),
   ("size_score_latency", .intv (resolvedLat o.size_score)),
   ("ramp_up_time", .num (resolvedNum o.ramp_up_time)),
   ("ramp_up_time_latency", .intv (resolvedLat o.ramp_up_time)),
   ("license", .num (resolvedNum o.license)),
   ("license_latency", .intv (resolvedLat o.license)),
   ("dataset_quality", .num (resolvedNum o.dataset_quality)),
   ("dataset_quality_latency", .intv (resolvedLat o.dataset_quality)),
   ("dataset_and_code_score", .num (resolvedNum o.dataset_and_code_score)),
   ("dataset_and_code_score_latency", .intv (resolvedLat o.dataset_and_code_score))]

/-- The `metric_scores` dictionary after the override, in explicit form. -/
def mScoresOv (o : MetricOutcomes) : PyDict :=
  dset (mScores o) "dataset_and_code_score"
    (.num ((resolvedNum o.dataset_quality + resolvedNum o.code_quality) / 2))

/-- The reducer input actually built by the engine, in explicit form:
exactly the seven scalar metric keys, in dictionary order, with the
recomputed dataset-and-code mean. -/
def netInputOf (o : MetricOutcomes) : List (String × ℚ) :=
  [("code_quality", resolvedNum o.code_quality),
   ("performance_claims", resolvedNum o.performance_claims),
   ("bus_factor", resolvedNum o.bus_factor),
   ("ramp_up_time", resolvedNum o.ramp_up_time),
   ("license", resolvedNum o.license),
   ("dataset_quality", resolvedNum o.dataset_quality),
   ("dataset_and_code_score",
      (resolvedNum o.dataset_quality + resolvedNum o.code_quality) / 2)]

/-- The GradeResult `run_metrics` returns, with the net score kept
abstract. -/
def assembledWith (o : MetricOutcomes) (net : ℚ) (total_time_ms : ℤ) : GradeResult :=
  { name := resolvedStr "" o.name
    category := resolvedStr "MODEL" o.category
    net_score := net
    net_score_latency := total_time_ms
    ramp_up_time := resolvedNum o.ramp_up_time
    ramp_up_time_latency := resolvedLat o.ramp_up_time
    bus_factor := resolvedNum o.bus_factor
    bus_factor_latency := resolvedLat o.bus_factor
    performance_claims := resolvedNum o.performance_claims
    performance_claims_latency := resolvedLat o.performance_claims
    license := resolvedNum o.license
    license_latency := resolvedLat o.license
    size_score := resolvedSize o.size_score
    size_score_latency := resolvedLat o.size_score
    dataset_and_code_score :=
      (resolvedNum o.dataset_quality + resolvedNum o.code_quality) / 2
    dataset_and_code_score_latency := resolvedLat o.dataset_and_code_score
    dataset_quality := resolvedNum o.dataset_quality
    dataset_quality_latency := resolvedLat o.dataset_quality
    code_quality := resolvedNum o.code_quality
    code_quality_latency := resolvedLat o.code_quality }

/-- The GradeResult `run_metrics` returns, in explicit form. -/
def assembled (o : MetricOutcomes) (total_time_ms : ℤ) : GradeResult :=
  assembledWith o (Netscore.computeScore (netInputOf o)) total_time_ms

/-- Explicit literal form of the dictionary after the override. -/
def mScores1 (o : MetricOutcomes) : PyDict :=
  [("name", .str (resolvedStr "" o.name)),
   ("category", .str (resolvedStr "MODEL" o.category)),
   ("code_quality", .num (resolvedNum o.code_quality)),
   ("code_quality_latency", .intv (resolvedLat o.code_quality)),
   ("performance_claims", .num (resolvedNum o.performance_claims)),
   ("performance_claims_latency", .intv (resolvedLat o.performance_claims)),
   ("bus_factor", .num (resolvedNum o.bus_factor)),
   ("bus_factor_latency", .intv (resolvedLat o.bus_factor)),
   ("size_score", .size (resolvedSize o.size_score)),
   ("size_score_latency", .intv (resolvedLat o.size_score)),
   ("ramp_up_time", .num (resolvedNum o.ramp_up_time)),
   ("ramp_up_time_latency", .intv (resolvedLat o.ramp_up_time)),
   ("license", .num (resolvedNum o.license)),
   ("license_latency", .intv (resolvedLat o.license)),
   ("dataset_quality", .num (resolvedNum o.dataset_quality)),
   ("dataset_quality_latency", .intv (resolvedLat o.dataset_quality)),
   ("dataset_and_code_score",
      .num ((resolvedNum o.dataset_quality + resolvedNum o.code_quality) / 2)),
   ("dataset_and_code_score_latency", .intv (resolvedLat o.dataset_and_code_score))]

/-- The final dictionary handed to `assemble`: `mScores1` with the
net-score pair appended. -/
def mScores2 (o : MetricOutcomes) (net : ℚ) (t : ℤ) : PyDict :=
  mScores1 o ++ [("net_score", .num net), ("net_score_latency", .intv t)]

/-- A scalar numeric field value is legal per the spec's GradeResult
invariant: in [0,1] or exactly the sentinel -1.0. -/
def okScalar (x : ℚ) : Prop := (0 ≤ x ∧ x ≤ 1) ∨ x = -1

/-- Contract conformance of one scalar metric outcome: when the coroutine
returns, its score is a legal scalar and its latency is non-negative
(spec sections 3 and 4.1). -/
def okOutcome : TaskOutcome ℚ → Prop
  | .ok s l => okScalar s ∧ 0 ≤ l
  | .exn => True

/-- Contract conformance of the latency of any outcome. -/
def latOk {α : Type} : TaskOutcome α → Prop
  | .ok _ l => 0 ≤ l
  | .exn => True

/-- Contract conformance of a whole set of metric outcomes (spec section
4.1): every returned latency is non-negative, and every scalar metric that
returns yields a score in [0,1] or the sentinel. -/
def Conforming (o : MetricOutcomes) : Prop :=
  latOk o.name ∧ latOk o.category ∧ okOutcome o.code_quality ∧
  okOutcome o.performance_claims ∧ okOutcome o.bus_factor ∧ latOk o.size_score ∧
  okOutcome o.ramp_up_time ∧ okOutcome o.license ∧ okOutcome o.dataset_quality ∧
  okOutcome o.dataset_and_code_score

/-- All scalar numeric fields of a GradeResult other than
`dataset_and_code_score` are legal. -/
def scalarFieldsOkExceptDacs (g : GradeResult) : Prop :=
  okScalar g.net_score ∧ okScalar g.ramp_up_time ∧ okScalar g.bus_factor ∧
  okScalar g.performance_claims ∧ okScalar g.license ∧
  okScalar g.dataset_quality ∧ okScalar g.code_quality

/-- Every latency field of a GradeResult is non-negative. -/
def latenciesOk (g : GradeResult) : Prop :=
  0 ≤ g.net_score_latency ∧ 0 ≤ g.ramp_up_time_latency ∧ 0 ≤ g.bus_factor_latency ∧
  0 ≤ g.performance_claims_latency ∧ 0 ≤ g.license_latency ∧ 0 ≤ g.size_score_latency ∧
  0 ≤ g.dataset_and_code_score_latency ∧ 0 ≤ g.dataset_quality_latency ∧
  0 ≤ g.code_quality_latency

/-- The scalar-field invariant exactly as the spec states it (section 3):
every scalar numeric field, including `dataset_and_code_score`, is in
[0,1] or the sentinel, and every latency field is non-negative. -/
def scalarInvariant (g : GradeResult) : Prop :=
  scalarFieldsOkExceptDacs g ∧ okScalar g.dataset_and_code_score ∧ latenciesOk g

/-- The serialized key/value items of a GradeResult, in the order the
final dictionary is constructed (src/src/metrics.py, lines 252-276). -/
def gradeResultItems (g : GradeResult) : List (String × PyVal) :=
  [("name", .str g.name),
   ("category", .str g.category),
   ("net_score", .num g.net_score),
   ("net_score_latency", .intv g.net_score_latency),
   ("ramp_up_time", .num g.ramp_up_time),
   ("ramp_up_time_latency", .intv g.ramp_up_time_latency),
   ("bus_factor", .num g.bus_factor),
   ("bus_factor_latency", .intv g.bus_factor_latency),
   ("performance_claims", .num g.performance_claims),
   ("performance_claims_latency", .intv g.performance_claims_latency),
   ("license", .num g.license),
   ("license_latency", .intv g.license_latency),
   ("size_score", .size g.size_score),
   ("size_score_latency", .intv g.size_score_latency),
   ("dataset_and_code_score", .num g.dataset_and_code_score),
   ("dataset_and_code_score_latency", .intv g.dataset_and_code_score_latency),
   ("dataset_quality", .num g.dataset_quality),
   ("dataset_quality_latency", .intv g.dataset_quality_latency),
   ("code_quality", .num g.code_quality),
   ("code_quality_latency", .intv g.code_quality_latency)]

/-- The serialized key/value items of the size-score mapping, in the order
of the `SizeScore` TypedDict (src/src/metrics.py, lines 38-42). -/
def sizeScoreItems (d : SizeScore) : List (String × ℚ) :=
  [("raspberry_pi", d.raspberry_pi),
   ("jetson_nano", d.jetson_nano),
   ("desktop_pc", d.desktop_pc),
   ("aws_server", d.aws_server)]

/-- A sample URL mapping with all three categories present. -/
def u0 : UrlMap :=
  { model := some ⟨some "https://huggingface.co/org/model"⟩
    dataset := some ⟨some "https://huggingface.co/datasets/org/data"⟩
    code := some ⟨some "https://github.com/org/repo"⟩ }

/-- Outcomes where every metric succeeds with score 1.0 (and the string and
mapping metrics succeed with their nominal values). -/
def allOnes : MetricOutcomes :=
  { name := .ok "org/model" 1
    category := .ok "MODEL" 1
    code_quality := .ok 1 2
    performance_claims := .ok 1 2
    bus_factor := .ok 1 2
    size_score := .ok ⟨1, 1, 1, 1⟩ 3
    ramp_up_time := .ok 1 2
    license := .ok 1 2
    dataset_quality := .ok 1 2
    dataset_and_code_score := .ok 1 2 }

/-- Outcomes where every metric raises past its boundary. -/
def allExn : MetricOutcomes :=
  { name := .exn
    category := .exn
    code_quality := .exn
    performance_claims := .exn
    bus_factor := .exn
    size_score := .exn
    ramp_up_time := .exn
    license := .exn
    dataset_quality := .exn
    dataset_and_code_score := .exn }

/-- Contract-conforming outcomes where `dataset_quality` raises and
`code_quality` succeeds with 0.5: the recomputed mean is then -0.25. -/
def halfAndFail : MetricOutcomes :=
  { allOnes with
    code_quality := .ok (1 / 2) 7
    dataset_quality := .exn }

/-- The reducer input the spec's mid-range scenario describes: every scalar
metric at its stated value (in the dictionary order the engine builds), and
`dataset_and_code_score` recomputed to 0.85. -/
def c6Input : List (String × ℚ) :=
  [("code_quality", 9 / 10),
   ("performance_claims", 1 / 2),
   ("bus_factor", 3 / 4),
   ("ramp_up_time", 3 / 5),
   ("license", 1),
   ("dataset_quality", 4 / 5),
   ("dataset_and_code_score", 17 / 20)]

end Metrics

/-! ## src/src/size_score.py -/

namespace SizeScorePy

/-- Whether the string `sub` occurs inside `s` (Python `sub in s`),
checking every suffix of `s` for `sub` as a leading block. -/
def containsAux (t : List Char) : List Char → Bool
  | [] => Metrics.isPrefixL t []
  | c :: rest => Metrics.isPrefixL t (c :: rest) || containsAux t rest

/-- Python `sub in s` on strings. -/
def containsSub (s sub : String) : Bool := containsAux sub.data s.data

/-- Default score if the metric fails: all devices scored 0.0, not the
-1.0 sentinel (src/src/size_score.py, lines 11-16). -/
def ERROR_VALUE : List (String × ℚ) :=
  [("raspberry_pi", 0), ("jetson_nano", 0), ("desktop_pc", 0), ("aws_server", 0)]

/-- Device capacity thresholds in GB (src/src/size_score.py, lines 19-24). -/
def DEVICE_LIMITS : List (String × ℚ) :=
  [("raspberry_pi", 1), ("jetson_nano", 2), ("desktop_pc", 16), ("aws_server", 128)]

/-- The per-device threshold rule (src/src/size_score.py, lines 245-252):
1.0 up to half the limit, 0.5 up to the limit, 0.0 above it. -/
def deviceScore (model_size_gb limit : ℚ) : ℚ :=
  if model_size_gb ≤ limit * (1 / 2) then 1
  else if model_size_gb ≤ limit then 1 / 2
  else 0

/-- The scores dictionary built by the loop over `DEVICE_LIMITS`. -/
def scoresFor (model_size_gb : ℚ) : List (String × ℚ) :=
  DEVICE_LIMITS.map fun p => (p.1, deviceScore model_size_gb p.2)

/-- `compute` (src/src/size_score.py, lines 204-260).  The estimator
`_estimate_model_size_gb` performs network requests; its behaviour is
abstracted as `estimate` — `Except.ok` a size in GB, `Except.error` when it
raises (caught by the `try` of lines 239-260).  `lat` abstracts the
wall-clock latency measured at whichever return point executes. -/
def compute (model_url : String) (estimate : Except String ℚ) (lat : ℤ) :
    List (String × ℚ) × ℤ :=
  if model_url = "" ∨ containsSub model_url "huggingface.co" = false then
    (ERROR_VALUE, lat)
  else
    match estimate with
    | .ok model_size_gb => (scoresFor model_size_gb, lat)
    | .error _ => (ERROR_VALUE, lat)

end SizeScorePy

/-! ## Properties of the rounding model -/

theorem roundHalfEven_cases (y : ℚ) :
    roundHalfEven y = ⌊y⌋ ∨ roundHalfEven y = ⌊y⌋ + 1 := by
  unfold roundHalfEven
  split_ifs <;> simp

theorem roundHalfEven_ge (y : ℚ) (a : ℤ) (h : (a : ℚ) ≤ y) :
    a ≤ roundHalfEven y := by
  have hf : a ≤ ⌊y⌋ := Int.le_floor.mpr h
  rcases roundHalfEven_cases y with h1 | h1 <;> omega

theorem roundHalfEven_le (y : ℚ) (b : ℤ) (h : y ≤ (b : ℚ)) :
    roundHalfEven y ≤ b := by
  unfold roundHalfEven
  have hfl : (⌊y⌋ : ℚ) ≤ y := Int.floor_le y
  have hfb : ⌊y⌋ ≤ b := by
    have h2 := Int.floor_le_floor (α := ℚ) h
    rwa [Int.floor_intCast] at h2
  split_ifs with h1 h2 h3
  · exact hfb
  · -- here y - ⌊y⌋ > 1/2, so ⌊y⌋ < b and ⌊y⌋ + 1 ≤ b
    have hlt : (⌊y⌋ : ℚ) < (b : ℚ) := by linarith
    have : ⌊y⌋ < b := by exact_mod_cast hlt
    omega
  · exact hfb
  · -- tie case: y - ⌊y⌋ = 1/2
    have heq : y - (⌊y⌋ : ℚ) = 1 / 2 := le_antisymm (not_lt.mp h2) (not_lt.mp h1)
    have hlt : (⌊y⌋ : ℚ) < (b : ℚ) := by linarith
    have : ⌊y⌋ < b := by exact_mod_cast hlt
    omega

theorem round2_nonneg (x : ℚ) (h : 0 ≤ x) : 0 ≤ round2 x := by
  unfold round2
  have h0 : (0 : ℤ) ≤ roundHalfEven (x * 100) := by
    apply roundHalfEven_ge
    exact_mod_cast (by linarith : (0 : ℚ) ≤ x * 100)
  have : (0 : ℚ) ≤ (roundHalfEven (x * 100) : ℚ) := by exact_mod_cast h0
  linarith

theorem round2_le (x : ℚ) (b : ℤ) (h : x ≤ (b : ℚ) / 100) :
    round2 x ≤ (b : ℚ) / 100 := by
  unfold round2
  have h0 : roundHalfEven (x * 100) ≤ b := by
    apply roundHalfEven_le
    linarith
  have : (roundHalfEven (x * 100) : ℚ) ≤ (b : ℚ) := by exact_mod_cast h0
  linarith

theorem roundHalfEven_intCast (z : ℤ) : roundHalfEven (z : ℚ) = z := by
  unfold roundHalfEven
  rw [Int.floor_intCast]
  rw [if_pos (by norm_num)]

theorem roundHalfEven_int (y : ℚ) (f : ℤ) (h : y = (f : ℚ)) : roundHalfEven y = f := by
  rw [h]
  exact roundHalfEven_intCast f

theorem roundHalfEven_up (y : ℚ) (f : ℤ) (h1 : (f : ℚ) ≤ y) (h2 : y < f + 1)
    (h3 : 1 / 2 < y - f) : roundHalfEven y = f + 1 := by
  have hf : ⌊y⌋ = f := by
    rw [Int.floor_eq_iff]
    exact ⟨h1, by exact_mod_cast h2⟩
  unfold roundHalfEven
  rw [hf]
  rw [if_neg (by linarith), if_pos (by linarith)]

/-! ## Properties of the net-score reducer -/

namespace Netscore

theorem bounds_mem (x bottom top : ℚ) (h : bottom ≤ top) :
    bottom ≤ bounds x bottom top ∧ bounds x bottom top ≤ top := by
  unfold bounds
  split_ifs with h1 h2
  · exact ⟨le_refl _, h⟩
  · exact ⟨h, le_refl _⟩
  · exact ⟨not_lt.mp h1, not_lt.mp h2⟩

theorem bounds_le_of (x c : ℚ) (h : x ≤ c) (h0 : 0 ≤ c) (h1 : c ≤ 1) :
    bounds x 0 1 ≤ c := by
  unfold bounds
  split_ifs with ha hc
  · exact h0
  · linarith
  · exact h

theorem computeScore_nonneg (m : List (String × ℚ)) : 0 ≤ computeScore m := by
  unfold computeScore
  exact round2_nonneg _ (bounds_mem _ 0 1 (by norm_num)).1

theorem computeScore_le_one (m : List (String × ℚ)) : computeScore m ≤ 1 := by
  unfold computeScore
  have h := round2_le (bounds (WEIGHTS.foldl
      (fun net p => net + p.2 * bounds (mget m p.1 0) 0 1) 0) 0 1) 100
    (by
      have := (bounds_mem (WEIGHTS.foldl
        (fun net p => net + p.2 * bounds (mget m p.1 0) 0 1) 0) 0 1 (by norm_num)).2
      push_cast
      linarith)
  calc round2 (bounds (WEIGHTS.foldl
        (fun net p => net + p.2 * bounds (mget m p.1 0) 0 1) 0) 0 1)
      ≤ ((100 : ℤ) : ℚ) / 100 := h
    _ = 1 := by norm_num

end Netscore

/-! ## Characterization of the aggregation engine -/

namespace Metrics

theorem assembled_name (o : MetricOutcomes) (t : ℤ) :
    (assembled o t).name = resolvedStr "" o.name := rfl

theorem assembled_category (o : MetricOutcomes) (t : ℤ) :
    (assembled o t).category = resolvedStr "MODEL" o.category := rfl

theorem assembled_net_score (o : MetricOutcomes) (t : ℤ) :
    (assembled o t).net_score = Netscore.computeScore (netInputOf o) := rfl

theorem assembled_net_score_latency (o : MetricOutcomes) (t : ℤ) :
    (assembled o t).net_score_latency = t := rfl

theorem assembled_ramp_up_time (o : MetricOutcomes) (t : ℤ) :
    (assembled o t).ramp_up_time = resolvedNum o.ramp_up_time := rfl

theorem assembled_ramp_up_time_latency (o : MetricOutcomes) (t : ℤ) :
    (assembled o t).ramp_up_time_latency = resolvedLat o.ramp_up_time := rfl

theorem assembled_bus_factor (o : MetricOutcomes) (t : ℤ) :
    (assembled o t).bus_factor = resolvedNum o.bus_factor := rfl

theorem assembled_bus_factor_latency (o : MetricOutcomes) (t : ℤ) :
    (assembled o t).bus_factor_latency = resolvedLat o.bus_factor := rfl

theorem assembled_performance_claims (o : MetricOutcomes) (t : ℤ) :
    (assembled o t).performance_claims = resolvedNum o.performance_claims := rfl

theorem assembled_performance_claims_latency (o : MetricOutcomes) (t : ℤ) :
    (assembled o t).performance_claims_latency = resolvedLat o.performance_claims := rfl

theorem assembled_license (o : MetricOutcomes) (t : ℤ) :
    (assembled o t).license = resolvedNum o.license := rfl

theorem assembled_license_latency (o : MetricOutcomes) (t : ℤ) :
    (assembled o t).license_latency = resolvedLat o.license := rfl

theorem assembled_size_score (o : MetricOutcomes) (t : ℤ) :
    (assembled o t).size_score = resolvedSize o.size_score := rfl

theorem assembled_size_score_latency (o : MetricOutcomes) (t : ℤ) :
    (assembled o t).size_score_latency = resolvedLat o.size_score := rfl

theorem assembled_dataset_and_code_score (o : MetricOutcomes) (t : ℤ) :
    (assembled o t).dataset_and_code_score = (resolvedNum o.dataset_quality + resolvedNum o.code_quality) / 2 := rfl

theorem assembled_dataset_and_code_score_latency (o : MetricOutcomes) (t : ℤ) :
    (assembled o t).dataset_and_code_score_latency = resolvedLat o.dataset_and_code_score := rfl

theorem assembled_dataset_quality (o : MetricOutcomes) (t : ℤ) :
    (assembled o t).dataset_quality = resolvedNum o.dataset_quality := rfl

theorem assembled_dataset_quality_latency (o : MetricOutcomes) (t : ℤ) :
    (assembled o t).dataset_quality_latency = resolvedLat o.dataset_quality := rfl

theorem assembled_code_quality (o : MetricOutcomes) (t : ℤ) :
    (assembled o t).code_quality = resolvedNum o.code_quality := rfl

theorem assembled_code_quality_latency (o : MetricOutcomes) (t : ℤ) :
    (assembled o t).code_quality_latency = resolvedLat o.code_quality := rfl

theorem resolveOne_name (s : PyDict) (r : TaskOutcome String) :
    resolveOne s "name" (r.toPy PyVal.str) =
      dset s "name" (.str (resolvedStr "" r)) := by
  cases r <;> rfl

theorem resolveOne_category (s : PyDict) (r : TaskOutcome String) :
    resolveOne s "category" (r.toPy PyVal.str) =
      dset s "category" (.str (resolvedStr "MODEL" r)) := by
  cases r <;> rfl

theorem resolveOne_size (s : PyDict) (r : TaskOutcome SizeScore) :
    resolveOne s "size_score" (r.toPy PyVal.size) =
      dset (dset s "size_score" (.size (resolvedSize r)))
        "size_score_latency" (.intv (resolvedLat r)) := by
  cases r <;> rfl

theorem resolveOne_code_quality (s : PyDict) (r : TaskOutcome ℚ) :
    resolveOne s "code_quality" (r.toPy PyVal.num) =
      dset (dset s "code_quality" (.num (resolvedNum r)))
        "code_quality_latency" (.intv (resolvedLat r)) := by
  cases r <;> rfl

theorem resolveOne_performance_claims (s : PyDict) (r : TaskOutcome ℚ) :
    resolveOne s "performance_claims" (r.toPy PyVal.num) =
      dset (dset s "performance_claims" (.num (resolvedNum r)))
        "performance_claims_latency" (.intv (resolvedLat r)) := by
  cases r <;> rfl

theorem resolveOne_bus_factor (s : PyDict) (r : TaskOutcome ℚ) :
    resolveOne s "bus_factor" (r.toPy PyVal.num) =
      dset (dset s "bus_factor" (.num (resolvedNum r)))
        "bus_factor_latency" (.intv (resolvedLat r)) := by
  cases r <;> rfl

theorem resolveOne_ramp_up_time (s : PyDict) (r : TaskOutcome ℚ) :
    resolveOne s "ramp_up_time" (r.toPy PyVal.num) =
      dset (dset s "ramp_up_time" (.num (resolvedNum r)))
        "ramp_up_time_latency" (.intv (resolvedLat r)) := by
  cases r <;> rfl

theorem resolveOne_license (s : PyDict) (r : TaskOutcome ℚ) :
    resolveOne s "license" (r.toPy PyVal.num) =
      dset (dset s "license" (.num (resolvedNum r)))
        "license_latency" (.intv (resolvedLat r)) := by
  cases r <;> rfl

theorem resolveOne_dataset_quality (s : PyDict) (r : TaskOutcome ℚ) :
    resolveOne s "dataset_quality" (r.toPy PyVal.num) =
      dset (dset s "dataset_quality" (.num (resolvedNum r)))
        "dataset_quality_latency" (.intv (resolvedLat r)) := by
  cases r <;> rfl

theorem resolveOne_dataset_and_code_score (s : PyDict) (r : TaskOutcome ℚ) :
    resolveOne s "dataset_and_code_score" (r.toPy PyVal.num) =
      dset (dset s "dataset_and_code_score" (.num (resolvedNum r)))
        "dataset_and_code_score_latency" (.intv (resolvedLat r)) := by
  cases r <;> rfl

set_option maxHeartbeats 2000000 in
/-- The resolve loop produces exactly the eighteen-entry dictionary
`mScores`. -/
theorem resolveAll_eq (o : MetricOutcomes) : resolveAll o = mScores o := by
  unfold resolveAll gatherResults
  simp only [resolveList]
  rw [resolveOne_name, resolveOne_category, resolveOne_code_quality,
    resolveOne_performance_claims, resolveOne_bus_factor, resolveOne_size,
    resolveOne_ramp_up_time, resolveOne_license, resolveOne_dataset_quality,
    resolveOne_dataset_and_code_score]
  simp [dset, mScores]

theorem mScoresOv_eq (o : MetricOutcomes) : mScoresOv o = mScores1 o := by
  simp [mScoresOv, mScores, mScores1, dset]

/-- The override step always succeeds and produces `mScores1`. -/
theorem overriddenScores_eq (o : MetricOutcomes) :
    overriddenScores o = some (mScores1 o) := by
  unfold overriddenScores
  rw [resolveAll_eq]
  rw [show (dget (mScores o) "dataset_quality") = some (.num (resolvedNum o.dataset_quality)) by
        simp [mScores, dget]]
  rw [show (dget (mScores o) "code_quality") = some (.num (resolvedNum o.code_quality)) by
        simp [mScores, dget]]
  rw [← mScoresOv_eq]
  rfl

theorem net_score_input_eq (o : MetricOutcomes) :
    net_score_input (mScores1 o) = netInputOf o := by
  simp [net_score_input, mScores1, netInputOf, List.filterMap,
    show pyEndsWith "name" "_latency" = false from by decide,
    show pyEndsWith "category" "_latency" = false from by decide,
    show pyEndsWith "code_quality" "_latency" = false from by decide,
    show pyEndsWith "performance_claims" "_latency" = false from by decide,
    show pyEndsWith "bus_factor" "_latency" = false from by decide,
    show pyEndsWith "size_score" "_latency" = false from by decide,
    show pyEndsWith "ramp_up_time" "_latency" = false from by decide,
    show pyEndsWith "license" "_latency" = false from by decide,
    show pyEndsWith "dataset_quality" "_latency" = false from by decide,
    show pyEndsWith "dataset_and_code_score" "_latency" = false from by decide,
    show pyEndsWith "code_quality_latency" "_latency" = true from by decide,
    show pyEndsWith "performance_claims_latency" "_latency" = true from by decide,
    show pyEndsWith "bus_factor_latency" "_latency" = true from by decide,
    show pyEndsWith "size_score_latency" "_latency" = true from by decide,
    show pyEndsWith "ramp_up_time_latency" "_latency" = true from by decide,
    show pyEndsWith "license_latency" "_latency" = true from by decide,
    show pyEndsWith "dataset_quality_latency" "_latency" = true from by decide,
    show pyEndsWith "dataset_and_code_score_latency" "_latency" = true from by decide]

set_option maxHeartbeats 2000000 in
theorem finish_dict_eq (o : MetricOutcomes) (net : ℚ) (t : ℤ) :
    dset (dset (mScores1 o) "net_score" (.num net)) "net_score_latency" (.intv t) =
      mScores2 o net t := by
  simp [dset, mScores1, mScores2]

set_option maxHeartbeats 2000000 in
theorem assembleOk_mScores2 (o : MetricOutcomes) (net : ℚ) (t : ℤ) :
    assembleOk (mScores2 o net t) = true := by
  simp [assembleOk, mScores2, mScores1, getFloatD, getIntD, dget, pyFloat, pyInt]

set_option maxHeartbeats 2000000 in
theorem assembleFields_mScores2 (o : MetricOutcomes) (net : ℚ) (t : ℤ) :
    assembleFields (mScores2 o net t) = assembledWith o net t := by
  simp [assembleFields, mScores2, mScores1, getFloatD, getIntD, dget, pyFloat,
    pyInt, pyStr, assembledWith]

theorem finishUp_eq (o : MetricOutcomes) (t r : ℤ) :
    finishUp (mScores1 o) t r = some (assembled o t) := by
  unfold finishUp
  rw [net_score_input_eq]
  have hc : (Netscore.compute (netInputOf o) r).1 = Netscore.computeScore (netInputOf o) := rfl
  rw [hc, finish_dict_eq]
  unfold assemble
  rw [assembleOk_mScores2]
  rw [if_pos rfl]
  rw [assembleFields_mScores2]
  rfl

set_option maxHeartbeats 1000000 in
/-- `run_metrics` never fails and returns exactly the `assembled` record
for the outcomes of the metric tasks at the extracted URL strings. -/
theorem run_metrics_eq (u : UrlMap) (B : String → String → String → MetricOutcomes)
    (t r : ℤ) :
    run_metrics u B t r =
      some (assembled (B (urlString u.model) (urlString u.code) (urlString u.dataset)) t) := by
  unfold run_metrics
  rw [overriddenScores_eq]
  rw [Option.some_bind]
  exact finishUp_eq _ t r

theorem okScalar_resolvedNum (r : TaskOutcome ℚ) (h : okOutcome r) :
    okScalar (resolvedNum r) := by
  cases r with
  | ok s l => exact h.1
  | exn => exact Or.inr rfl

theorem resolvedLat_nonneg {α : Type} (r : TaskOutcome α) (h : latOk r) :
    0 ≤ resolvedLat r := by
  cases r with
  | ok s l => exact h
  | exn => exact le_refl 0

theorem okScalar_bounds (x : ℚ) (h : okScalar x) : -1 ≤ x ∧ x ≤ 1 := by
  rcases h with ⟨h0, h1⟩ | h2
  · exact ⟨by linarith, h1⟩
  · rw [h2]; norm_num

theorem eval_c6 : Netscore.computeScore c6Input = 71 / 100 := by
  simp only [Netscore.computeScore, Netscore.WEIGHTS, Netscore.mget, Netscore.bounds,
    c6Input, round2, List.foldl, String.reduceEq, reduceIte]
  norm_num
  rw [show roundHalfEven ((283 : ℚ) / 4) = 71 from
    roundHalfEven_up _ 70 (by norm_num) (by norm_num) (by norm_num)]
  norm_num

theorem eval_allOnes : Netscore.computeScore (netInputOf allOnes) = 9 / 10 := by
  simp only [Netscore.computeScore, Netscore.WEIGHTS, Netscore.mget, Netscore.bounds,
    netInputOf, allOnes, resolvedNum, round2, List.foldl, String.reduceEq, reduceIte]
  norm_num
  rw [show roundHalfEven ((90 : ℚ)) = 90 from roundHalfEven_int _ 90 (by norm_num)]
  norm_num

theorem eval_allExn : Netscore.computeScore (netInputOf allExn) = 0 := by
  simp only [Netscore.computeScore, Netscore.WEIGHTS, Netscore.mget, Netscore.bounds,
    netInputOf, allExn, resolvedNum, ERROR_VALUE, round2, List.foldl, String.reduceEq,
    reduceIte]
  norm_num
  exact roundHalfEven_int _ 0 (by norm_num)

theorem eval_busRaise :
    Netscore.computeScore (netInputOf { allOnes with bus_factor := .exn }) = 39 / 50 := by
  simp only [Netscore.computeScore, Netscore.WEIGHTS, Netscore.mget, Netscore.bounds,
    netInputOf, allOnes, resolvedNum, ERROR_VALUE, round2, List.foldl, String.reduceEq,
    reduceIte]
  norm_num
  rw [show roundHalfEven ((78 : ℚ)) = 78 from roundHalfEven_int _ 78 (by norm_num)]
  norm_num

theorem eval_busPartial :
    Netscore.computeScore (netInputOf { allOnes with bus_factor := .ok (3 / 4) 4 }) =
      87 / 100 := by
  simp only [Netscore.computeScore, Netscore.WEIGHTS, Netscore.mget, Netscore.bounds,
    netInputOf, allOnes, resolvedNum, round2, List.foldl, String.reduceEq, reduceIte]
  norm_num
  rw [show roundHalfEven ((87 : ℚ)) = 87 from roundHalfEven_int _ 87 (by norm_num)]
  norm_num

theorem mget_netInputOf_size (o : MetricOutcomes) :
    Netscore.mget (netInputOf o) "size_score" 0 = 0 := by
  simp [netInputOf, Netscore.mget, String.reduceEq]

theorem netFold_le (m : List (String × ℚ))
    (hsize : Netscore.mget m "size_score" 0 = 0) :
    Netscore.WEIGHTS.foldl
      (fun net p => net + p.2 * Netscore.bounds (Netscore.mget m p.1 0) 0 1) 0 ≤ 9 / 10 := by
  simp only [Netscore.WEIGHTS, List.foldl]
  rw [hsize]
  have h0 : Netscore.bounds 0 0 1 = 0 := by norm_num [Netscore.bounds]
  rw [h0]
  have h1 := Netscore.bounds_mem (Netscore.mget m "license" 0) 0 1 (by norm_num)
  have h2 := Netscore.bounds_mem (Netscore.mget m "ramp_up_time" 0) 0 1 (by norm_num)
  have h3 := Netscore.bounds_mem (Netscore.mget m "bus_factor" 0) 0 1 (by norm_num)
  have h4 := Netscore.bounds_mem (Netscore.mget m "performance_claims" 0) 0 1 (by norm_num)
  have h5 := Netscore.bounds_mem (Netscore.mget m "dataset_and_code_score" 0) 0 1 (by norm_num)
  have h6 := Netscore.bounds_mem (Netscore.mget m "dataset_quality" 0) 0 1 (by norm_num)
  have h7 := Netscore.bounds_mem (Netscore.mget m "code_quality" 0) 0 1 (by norm_num)
  obtain ⟨h1a, h1b⟩ := h1
  obtain ⟨h2a, h2b⟩ := h2
  obtain ⟨h3a, h3b⟩ := h3
  obtain ⟨h4a, h4b⟩ := h4
  obtain ⟨h5a, h5b⟩ := h5
  obtain ⟨h6a, h6b⟩ := h6
  obtain ⟨h7a, h7b⟩ := h7
  linarith

/-- The effective ceiling: because `size_score` is never in the reducer
input, the reducer applied to the engine's input can never exceed 0.90. -/
theorem computeScore_netInput_le (o : MetricOutcomes) :
    Netscore.computeScore (netInputOf o) ≤ 9 / 10 := by
  unfold Netscore.computeScore
  have hf := netFold_le (netInputOf o) (mget_netInputOf_size o)
  have hb : Netscore.bounds
      (Netscore.WEIGHTS.foldl
        (fun net p => net + p.2 * Netscore.bounds (Netscore.mget (netInputOf o) p.1 0) 0 1) 0)
      0 1 ≤ 9 / 10 :=
    Netscore.bounds_le_of _ _ hf (by norm_num) (by norm_num)
  have h90 := round2_le (Netscore.bounds
      (Netscore.WEIGHTS.foldl
        (fun net p => net + p.2 * Netscore.bounds (Netscore.mget (netInputOf o) p.1 0) 0 1) 0)
      0 1) 90 (by push_cast; linarith)
  calc round2 _ ≤ ((90 : ℤ) : ℚ) / 100 := h90
    _ = 9 / 10 := by norm_num

theorem latOk_of_okOutcome (r : TaskOutcome ℚ) (h : okOutcome r) : latOk r := by
  cases r with
  | ok s l => exact h.2
  | exn => trivial

theorem conforming_allOnes : Conforming allOnes := by
  refine ⟨?_, ?_, ?_, ?_, ?_, ?_, ?_, ?_, ?_, ?_⟩ <;>
    simp [allOnes, okOutcome, latOk, okScalar]

theorem conforming_halfAndFail : Conforming halfAndFail := by
  refine ⟨?_, ?_, ?_, ?_, ?_, ?_, ?_, ?_, ?_, ?_⟩ <;>
    (simp [halfAndFail, allOnes, okOutcome, latOk, okScalar]; try norm_num)

theorem mean_bounds (a b : ℚ) (ha : -1 ≤ a ∧ a ≤ 1) (hb : -1 ≤ b ∧ b ≤ 1) :
    -1 ≤ (a + b) / 2 ∧ (a + b) / 2 ≤ 1 := by
  obtain ⟨ha1, ha2⟩ := ha
  obtain ⟨hb1, hb2⟩ := hb
  constructor <;> linarith

theorem dacs_halfAndFail :
    (assembled halfAndFail 5).dataset_and_code_score = -(1 / 4) := by
  simp only [assembled, assembledWith, halfAndFail, allOnes, resolvedNum, ERROR_VALUE]
  norm_num

end Metrics

/-! ## The claims -/

/-- Claim C2: for every execution of `run_metrics`, the returned
`dataset_and_code_score` equals the arithmetic mean of the resolved
`dataset_quality` and `code_quality` values (boundary failures resolving to
the sentinel -1.0), and the value returned by the dedicated dataset-and-code
metric function never influences this field (replacing that metric's outcome
by anything leaves the field unchanged). -/
theorem C2_thm (u : Metrics.UrlMap) (B : String → String → String → Metrics.MetricOutcomes)
    (t r : ℤ) :
    (Metrics.run_metrics u B t r).map (fun g => g.dataset_and_code_score) =
      some ((Metrics.resolvedNum
              (B (Metrics.urlString u.model) (Metrics.urlString u.code)
                (Metrics.urlString u.dataset)).dataset_quality +
            Metrics.resolvedNum
              (B (Metrics.urlString u.model) (Metrics.urlString u.code)
                (Metrics.urlString u.dataset)).code_quality) / 2) ∧
    ∀ alt, (Metrics.run_metrics u
        (fun a b c => { B a b c with dataset_and_code_score := alt }) t r).map
          (fun g => g.dataset_and_code_score) =
      (Metrics.run_metrics u B t r).map (fun g => g.dataset_and_code_score) := by
  constructor
  · rw [Metrics.run_metrics_eq]
    rfl
  · intro alt
    rw [Metrics.run_metrics_eq, Metrics.run_metrics_eq]
    rfl

/-- Claim C3: for every URL mapping (any slots present or absent) and every
contract-conforming behaviour of the metric functions, `run_metrics` never
raises (always returns a result) and the result serializes to exactly the
fixed top-level keys in the fixed order, with `size_score` holding exactly
the four device keys. -/
theorem C3_thm (u : Metrics.UrlMap) (B : String → String → String → Metrics.MetricOutcomes)
    (t r : ℤ) :
    ∃ g, Metrics.run_metrics u B t r = some g ∧
      (Metrics.gradeResultItems g).map Prod.fst =
        ["name", "category", "net_score", "net_score_latency", "ramp_up_time",
         "ramp_up_time_latency", "bus_factor", "bus_factor_latency",
         "performance_claims", "performance_claims_latency", "license",
         "license_latency", "size_score", "size_score_latency",
         "dataset_and_code_score", "dataset_and_code_score_latency",
         "dataset_quality", "dataset_quality_latency", "code_quality",
         "code_quality_latency"] ∧
      (Metrics.sizeScoreItems g.size_score).map Prod.fst =
        ["raspberry_pi", "jetson_nano", "desktop_pc", "aws_server"] :=
  ⟨_, Metrics.run_metrics_eq u B t r, rfl, rfl⟩

/-- Claim C6 (counterexample): on the spec's mid-range scenario input the
reducer returns 0.71, not the claimed 0.70 (the exact weighted sum is
0.7075, which rounds to 0.71 at two decimals — there is no tie, so
round-half-even does not bring it down to 0.70). -/
theorem C6_counterexample : Netscore.computeScore Metrics.c6Input ≠ 7 / 10 := by
  rw [Metrics.eval_c6]
  norm_num

/-- Claim C6 (amended): on the reducer input license=1.0, ramp_up_time=0.6,
bus_factor=0.75, performance_claims=0.5, dataset_quality=0.8,
code_quality=0.9, dataset_and_code_score=0.85, the Net Score Reducer
returns net_score = 0.71 (= round(0.7075, 2)). -/
theorem C6_amended_thm : Netscore.computeScore Metrics.c6Input = 71 / 100 :=
  Metrics.eval_c6

/-- Claim C8: `net_score_latency` always equals the batch-total wall-clock
time of the aggregation pass (the `total_time_ms` measurement), and the
reducer's own latency measurement is discarded: the reducer does return its
own latency as the second component, but changing it never changes the
GradeResult. -/
theorem C8_thm (u : Metrics.UrlMap) (B : String → String → String → Metrics.MetricOutcomes)
    (t r r2 : ℤ) :
    (Metrics.run_metrics u B t r).map (fun g => g.net_score_latency) = some t ∧
    Metrics.run_metrics u B t r = Metrics.run_metrics u B t r2 ∧
    (∀ m lat, (Netscore.compute m lat).2 = lat) := by
  refine ⟨?_, ?_, fun m lat => rfl⟩
  · rw [Metrics.run_metrics_eq]
    rfl
  · rw [Metrics.run_metrics_eq, Metrics.run_metrics_eq]

/-- Claim C4: for every input mapping, the reducer returns the two-decimal
rounding of the clamped weighted sum of clamped values over the fixed
weight table (absent metrics contributing the default 0.0); the table is,
as a set of pairs, exactly the claimed one; the weights sum to at most 1.0;
and in particular the input {license: 5.0} scores the same as
{license: 1.0}. -/
theorem C4_thm :
    (∀ m, Netscore.computeScore m =
      round2 (Netscore.bounds
        ((Netscore.WEIGHTS.map
          (fun p => p.2 * Netscore.bounds (Netscore.mget m p.1 0) 0 1)).sum) 0 1)) ∧
    Netscore.WEIGHTS.Perm
      [("license", 18 / 100), ("ramp_up_time", 15 / 100),
       ("dataset_and_code_score", 15 / 100), ("bus_factor", 12 / 100),
       ("performance_claims", 10 / 100), ("dataset_quality", 10 / 100),
       ("code_quality", 10 / 100), ("size_score", 10 / 100)] ∧
    (Netscore.WEIGHTS.map Prod.snd).sum ≤ 1 ∧
    Netscore.computeScore [("license", 5)] = Netscore.computeScore [("license", 1)] := by
  refine ⟨?_, ?_, ?_, ?_⟩
  · intro m
    unfold Netscore.computeScore
    refine congrArg round2 (congrArg (fun x => Netscore.bounds x 0 1) ?_)
    simp only [Netscore.WEIGHTS, List.foldl_cons, List.foldl_nil, List.map_cons,
      List.map_nil, List.sum_cons, List.sum_nil]
    ring
  · simp only [Netscore.WEIGHTS]
    exact List.Perm.cons _ (List.Perm.cons _
      ((List.Perm.cons _ (List.Perm.swap _ _ _)).trans (List.Perm.swap _ _ _)))
  · simp only [Netscore.WEIGHTS, List.map_cons, List.map_nil, List.sum_cons, List.sum_nil]
    norm_num
  · simp only [Netscore.computeScore, Netscore.WEIGHTS, Netscore.mget, Netscore.bounds,
      List.foldl, String.reduceEq, reduceIte]
    norm_num

/-- Claim C5: the mapping the engine passes to the reducer holds exactly
the seven scalar metric keys — never `size_score`, `name`, `category` or a
latency key; consequently the reducer applied to an engine input can never
exceed 0.90, and when every included metric resolves to 1.0 the returned
net_score is exactly 0.90. -/
theorem C5_thm :
    (∀ o : Metrics.MetricOutcomes,
      (Metrics.overriddenScores o).map
          (fun s => (Metrics.net_score_input s).map Prod.fst) =
        some ["code_quality", "performance_claims", "bus_factor", "ramp_up_time",
              "license", "dataset_quality", "dataset_and_code_score"]) ∧
    ("size_score" ∉ ["code_quality", "performance_claims", "bus_factor", "ramp_up_time",
              "license", "dataset_quality", "dataset_and_code_score"]) ∧
    ("name" ∉ ["code_quality", "performance_claims", "bus_factor", "ramp_up_time",
              "license", "dataset_quality", "dataset_and_code_score"]) ∧
    ("category" ∉ ["code_quality", "performance_claims", "bus_factor", "ramp_up_time",
              "license", "dataset_quality", "dataset_and_code_score"]) ∧
    (["code_quality", "performance_claims", "bus_factor", "ramp_up_time",
      "license", "dataset_quality", "dataset_and_code_score"].all
        (fun k => !(Metrics.pyEndsWith k "_latency"))) = true ∧
    (∀ o : Metrics.MetricOutcomes,
      Netscore.computeScore (Metrics.netInputOf o) ≤ 9 / 10) ∧
    (∀ (u : Metrics.UrlMap) (t r : ℤ),
      (Metrics.run_metrics u (fun _ _ _ => Metrics.allOnes) t r).map
          (fun g => g.net_score) = some (9 / 10)) := by
  refine ⟨?_, by decide, by decide, by decide, by decide,
    Metrics.computeScore_netInput_le, ?_⟩
  · intro o
    rw [Metrics.overriddenScores_eq]
    simp only [Option.map_some']
    rw [Metrics.net_score_input_eq]
    rfl
  · intro u t r
    rw [Metrics.run_metrics_eq]
    simp only [Option.map_some']
    rw [show (Metrics.assembled Metrics.allOnes t).net_score =
          Netscore.computeScore (Metrics.netInputOf Metrics.allOnes) from rfl]
    rw [Metrics.eval_allOnes]

/-- Claim C1 (counterexample): there is a contract-conforming execution —
dataset_quality raises at the boundary while code_quality legitimately
returns 0.5 — whose GradeResult has dataset_and_code_score = -0.25, a
scalar numeric field that is neither in [0,1] nor the sentinel -1.0, so
the claimed invariant fails. -/
theorem C1_counterexample :
    Metrics.Conforming Metrics.halfAndFail ∧
    ¬ Metrics.okScalar (-(1 / 4) : ℚ) ∧
    (∃ g, Metrics.run_metrics Metrics.u0 (fun _ _ _ => Metrics.halfAndFail) 5 3 = some g ∧
      g.dataset_and_code_score = -(1 / 4) ∧ ¬ Metrics.scalarInvariant g) := by
  refine ⟨Metrics.conforming_halfAndFail, ?_, ?_⟩
  · intro h
    rcases h with ⟨h0, h1⟩ | h2
    · norm_num at h0
    · norm_num at h2
  · refine ⟨_, Metrics.run_metrics_eq _ _ _ _, Metrics.dacs_halfAndFail, ?_⟩
    intro h
    have hd := h.2.1
    rw [Metrics.dacs_halfAndFail] at hd
    rcases hd with ⟨h0, h1⟩ | h2
    · norm_num at h0
    · norm_num at h2

/-- Claim C1 (amended): under the metric contract (scores in [0,1] or the
sentinel, latencies non-negative) and with a non-negative batch time, every
scalar numeric field of the GradeResult except `dataset_and_code_score` is
in [0,1] or equals -1.0, every latency field is non-negative, and
`dataset_and_code_score` — the mean of the two resolved inputs — lies in
[-1,1] (it can fall outside [0,1] ∪ {-1} when exactly one input failed). -/
theorem C1_amended_thm (u : Metrics.UrlMap)
    (B : String → String → String → Metrics.MetricOutcomes) (t r : ℤ) (ht : 0 ≤ t)
    (hc : Metrics.Conforming
      (B (Metrics.urlString u.model) (Metrics.urlString u.code)
        (Metrics.urlString u.dataset))) :
    ∃ g, Metrics.run_metrics u B t r = some g ∧
      Metrics.scalarFieldsOkExceptDacs g ∧
      (-1 ≤ g.dataset_and_code_score ∧ g.dataset_and_code_score ≤ 1) ∧
      Metrics.latenciesOk g := by
  obtain ⟨hn, hcat, hcq, hpc, hbf, hss, hrt, hlic, hdq, hdacs⟩ := hc
  obtain ⟨hdq1, hdq2⟩ := Metrics.okScalar_bounds _ (Metrics.okScalar_resolvedNum _ hdq)
  obtain ⟨hcq1, hcq2⟩ := Metrics.okScalar_bounds _ (Metrics.okScalar_resolvedNum _ hcq)
  refine ⟨_, Metrics.run_metrics_eq u B t r,
    ⟨Or.inl ⟨Netscore.computeScore_nonneg _, Netscore.computeScore_le_one _⟩,
     Metrics.okScalar_resolvedNum _ hrt,
     Metrics.okScalar_resolvedNum _ hbf,
     Metrics.okScalar_resolvedNum _ hpc,
     Metrics.okScalar_resolvedNum _ hlic,
     Metrics.okScalar_resolvedNum _ hdq,
     Metrics.okScalar_resolvedNum _ hcq⟩,
    Metrics.mean_bounds _ _ ⟨hdq1, hdq2⟩ ⟨hcq1, hcq2⟩,
    ⟨ht,
     Metrics.resolvedLat_nonneg _ (Metrics.latOk_of_okOutcome _ hrt),
     Metrics.resolvedLat_nonneg _ (Metrics.latOk_of_okOutcome _ hbf),
     Metrics.resolvedLat_nonneg _ (Metrics.latOk_of_okOutcome _ hpc),
     Metrics.resolvedLat_nonneg _ (Metrics.latOk_of_okOutcome _ hlic),
     Metrics.resolvedLat_nonneg _ hss,
     Metrics.resolvedLat_nonneg _ (Metrics.latOk_of_okOutcome _ hdacs),
     Metrics.resolvedLat_nonneg _ (Metrics.latOk_of_okOutcome _ hdq),
     Metrics.resolvedLat_nonneg _ (Metrics.latOk_of_okOutcome _ hcq)⟩⟩

/-- Claim C1 (witness): the amended theorem applied at a concrete
conforming execution. -/
theorem C1_witness :
    (0 : ℤ) ≤ 5 ∧ Metrics.Conforming Metrics.allOnes ∧
    (∃ g, Metrics.run_metrics Metrics.u0 (fun _ _ _ => Metrics.allOnes) 5 3 = some g ∧
      Metrics.scalarFieldsOkExceptDacs g ∧
      (-1 ≤ g.dataset_and_code_score ∧ g.dataset_and_code_score ≤ 1) ∧
      Metrics.latenciesOk g) :=
  ⟨by norm_num, Metrics.conforming_allOnes,
    C1_amended_thm Metrics.u0 (fun _ _ _ => Metrics.allOnes) 5 3 (by norm_num)
      Metrics.conforming_allOnes⟩

/-- Claim C7 (counterexample): with every other metric succeeding at 1.0,
letting bus_factor raise gives net_score 0.78 while letting it return 0.75
gives 0.87 — so the run where bus_factor raised does not have every other
field equal to the non-raising run: net_score is affected. -/
theorem C7_counterexample :
    ∃ gA gB,
      Metrics.run_metrics Metrics.u0
        (fun _ _ _ => { Metrics.allOnes with bus_factor := .exn }) 5 3 = some gA ∧
      Metrics.run_metrics Metrics.u0
        (fun _ _ _ => { Metrics.allOnes with bus_factor := .ok (3 / 4) 4 }) 5 3 = some gB ∧
      gA.bus_factor = -1 ∧ gA.bus_factor_latency = 0 ∧
      gA.net_score = 39 / 50 ∧ gB.net_score = 87 / 100 ∧
      gA.net_score ≠ gB.net_score := by
  refine ⟨_, _, Metrics.run_metrics_eq _ _ _ _, Metrics.run_metrics_eq _ _ _ _,
    rfl, rfl, Metrics.eval_busRaise, Metrics.eval_busPartial, ?_⟩
  rw [show (Metrics.assembled { Metrics.allOnes with bus_factor := .exn } 5).net_score =
        39 / 50 from Metrics.eval_busRaise,
      show (Metrics.assembled { Metrics.allOnes with bus_factor := .ok (3 / 4) 4 } 5).net_score =
        87 / 100 from Metrics.eval_busPartial]
  norm_num

/-- Claim C7 (amended): a metric that raises past its boundary resolves to
its documented fallback — when every metric raises, the result is exactly
the all-fallback record (empty name, literal MODEL, all-sentinel size
mapping, every scalar -1.0, every metric latency 0, net_score 0.0) — and
when exactly bus_factor raises, the GradeResult has bus_factor = -1.0 with
latency 0 and every other field except net_score equal to what it would be
had bus_factor not raised (net_score instead sees the sentinel, which the
reducer clamps to 0). -/
theorem C7_amended_thm (u : Metrics.UrlMap) (t r : ℤ) (o : Metrics.MetricOutcomes)
    (altScore : ℚ) (altLat : ℤ) :
    ∃ gA gB,
      Metrics.run_metrics u (fun _ _ _ => { o with bus_factor := .exn }) t r = some gA ∧
      Metrics.run_metrics u (fun _ _ _ => { o with bus_factor := .ok altScore altLat }) t r
        = some gB ∧
      gA.bus_factor = -1 ∧ gA.bus_factor_latency = 0 ∧
      gA.name = gB.name ∧ gA.category = gB.category ∧
      gA.net_score_latency = gB.net_score_latency ∧
      gA.ramp_up_time = gB.ramp_up_time ∧
      gA.ramp_up_time_latency = gB.ramp_up_time_latency ∧
      gA.performance_claims = gB.performance_claims ∧
      gA.performance_claims_latency = gB.performance_claims_latency ∧
      gA.license = gB.license ∧ gA.license_latency = gB.license_latency ∧
      gA.size_score = gB.size_score ∧ gA.size_score_latency = gB.size_score_latency ∧
      gA.dataset_and_code_score = gB.dataset_and_code_score ∧
      gA.dataset_and_code_score_latency = gB.dataset_and_code_score_latency ∧
      gA.dataset_quality = gB.dataset_quality ∧
      gA.dataset_quality_latency = gB.dataset_quality_latency ∧
      gA.code_quality = gB.code_quality ∧
      gA.code_quality_latency = gB.code_quality_latency ∧
      (∀ (u2 : Metrics.UrlMap) (t2 r2 : ℤ),
        Metrics.run_metrics u2 (fun _ _ _ => Metrics.allExn) t2 r2 =
          some { name := "", category := "MODEL", net_score := 0, net_score_latency := t2,
                 ramp_up_time := -1, ramp_up_time_latency := 0,
                 bus_factor := -1, bus_factor_latency := 0,
                 performance_claims := -1, performance_claims_latency := 0,
                 license := -1, license_latency := 0,
                 size_score := Metrics.default_size_score, size_score_latency := 0,
                 dataset_and_code_score := -1, dataset_and_code_score_latency := 0,
                 dataset_quality := -1, dataset_quality_latency := 0,
                 code_quality := -1, code_quality_latency := 0 }) := by
  have hAll : ∀ (u2 : Metrics.UrlMap) (t2 r2 : ℤ),
      Metrics.run_metrics u2 (fun _ _ _ => Metrics.allExn) t2 r2 =
        some { name := "", category := "MODEL", net_score := 0, net_score_latency := t2,
               ramp_up_time := -1, ramp_up_time_latency := 0,
               bus_factor := -1, bus_factor_latency := 0,
               performance_claims := -1, performance_claims_latency := 0,
               license := -1, license_latency := 0,
               size_score := Metrics.default_size_score, size_score_latency := 0,
               dataset_and_code_score := -1, dataset_and_code_score_latency := 0,
               dataset_quality := -1, dataset_quality_latency := 0,
               code_quality := -1, code_quality_latency := 0 } := by
    intro u2 t2 r2
    have hrec : Metrics.assembled Metrics.allExn t2 =
        { name := "", category := "MODEL", net_score := 0, net_score_latency := t2,
          ramp_up_time := -1, ramp_up_time_latency := 0,
          bus_factor := -1, bus_factor_latency := 0,
          performance_claims := -1, performance_claims_latency := 0,
          license := -1, license_latency := 0,
          size_score := Metrics.default_size_score, size_score_latency := 0,
          dataset_and_code_score := -1, dataset_and_code_score_latency := 0,
          dataset_quality := -1, dataset_quality_latency := 0,
          code_quality := -1, code_quality_latency := 0 } := by
      unfold Metrics.assembled Metrics.assembledWith
      rw [Metrics.eval_allExn]
      simp [Metrics.allExn, Metrics.resolvedStr, Metrics.resolvedNum, Metrics.resolvedLat,
        Metrics.resolvedSize, Metrics.ERROR_VALUE]
    rw [Metrics.run_metrics_eq, hrec]
  refine ⟨_, _, Metrics.run_metrics_eq _ _ _ _, Metrics.run_metrics_eq _ _ _ _,
    ?_, ?_, ?_, ?_, ?_, ?_, ?_, ?_, ?_, ?_, ?_, ?_, ?_, ?_, ?_, ?_, ?_, ?_, ?_, hAll⟩
  all_goals simp only [Metrics.assembled_name, Metrics.assembled_category, Metrics.assembled_net_score, Metrics.assembled_net_score_latency, Metrics.assembled_ramp_up_time, Metrics.assembled_ramp_up_time_latency, Metrics.assembled_bus_factor, Metrics.assembled_bus_factor_latency, Metrics.assembled_performance_claims, Metrics.assembled_performance_claims_latency, Metrics.assembled_license, Metrics.assembled_license_latency, Metrics.assembled_size_score, Metrics.assembled_size_score_latency, Metrics.assembled_dataset_and_code_score, Metrics.assembled_dataset_and_code_score_latency, Metrics.assembled_dataset_quality, Metrics.assembled_dataset_quality_latency, Metrics.assembled_code_quality, Metrics.assembled_code_quality_latency, Metrics.resolvedNum, Metrics.resolvedLat,
    Metrics.resolvedStr, Metrics.resolvedSize, Metrics.ERROR_VALUE]

/-- Claim C10: whenever the size_score metric fails internally — empty
model URL, a URL not containing "huggingface.co", or the size estimator
raising — `compute` returns the all-zeros mapping (0.0 for each of the
four devices, not the -1.0 sentinel) with its measured latency; and a
model legitimately too large for every device (estimated size above the
largest 128 GB limit) produces exactly the same mapping, so the two cases
are indistinguishable in the output. -/
theorem C10_thm :
    (∀ (url : String) (e : Except String ℚ) (lat : ℤ),
      url = "" ∨ SizeScorePy.containsSub url "huggingface.co" = false →
        SizeScorePy.compute url e lat = (SizeScorePy.ERROR_VALUE, lat)) ∧
    (∀ (url : String) (msg : String) (lat : ℤ),
      SizeScorePy.compute url (Except.error msg) lat = (SizeScorePy.ERROR_VALUE, lat)) ∧
    (∀ (url : String) (gb : ℚ) (lat : ℤ), 128 < gb →
      SizeScorePy.compute url (Except.ok gb) lat = (SizeScorePy.ERROR_VALUE, lat)) ∧
    SizeScorePy.ERROR_VALUE =
      [("raspberry_pi", 0), ("jetson_nano", 0), ("desktop_pc", 0), ("aws_server", 0)] ∧
    SizeScorePy.ERROR_VALUE ≠
      [("raspberry_pi", -1), ("jetson_nano", -1), ("desktop_pc", -1), ("aws_server", -1)] := by
  refine ⟨?_, ?_, ?_, rfl, ?_⟩
  · intro url e lat h
    unfold SizeScorePy.compute
    rw [if_pos h]
  · intro url msg lat
    unfold SizeScorePy.compute
    split_ifs with h
    · rfl
    · rfl
  · intro url gb lat hgb
    unfold SizeScorePy.compute
    split_ifs with h
    · rfl
    · have hs : SizeScorePy.scoresFor gb = SizeScorePy.ERROR_VALUE := by
        unfold SizeScorePy.scoresFor SizeScorePy.DEVICE_LIMITS SizeScorePy.ERROR_VALUE
        simp only [List.map_cons, List.map_nil]
        have h1 : SizeScorePy.deviceScore gb 1 = 0 := by
          unfold SizeScorePy.deviceScore
          rw [if_neg (by linarith), if_neg (by linarith)]
        have h2 : SizeScorePy.deviceScore gb 2 = 0 := by
          unfold SizeScorePy.deviceScore
          rw [if_neg (by linarith), if_neg (by linarith)]
        have h3 : SizeScorePy.deviceScore gb 16 = 0 := by
          unfold SizeScorePy.deviceScore
          rw [if_neg (by linarith), if_neg (by linarith)]
        have h4 : SizeScorePy.deviceScore gb 128 = 0 := by
          unfold SizeScorePy.deviceScore
          rw [if_neg (by linarith), if_neg (by linarith)]
        rw [h1, h2, h3, h4]
      simp only [hs]
  · intro h
    have := List.head_eq_of_cons_eq h
    have h2 : (0 : ℚ) = -1 := congrArg Prod.snd this
    norm_num at h2

/-- Claim C10 (witness): the theorem applied at concrete inputs — an empty
URL, a raising estimator on a valid URL, and a 200 GB model on a valid
URL all give the all-zeros mapping. -/
theorem C10_witness :
    SizeScorePy.compute "" (Except.ok 1) 4 = (SizeScorePy.ERROR_VALUE, 4) ∧
    SizeScorePy.compute "https://huggingface.co/org/model" (Except.error "boom") 4 =
      (SizeScorePy.ERROR_VALUE, 4) ∧
    SizeScorePy.compute "https://huggingface.co/bigscience/bloom" (Except.ok 200) 4 =
      (SizeScorePy.ERROR_VALUE, 4) :=
  ⟨C10_thm.1 "" (Except.ok 1) 4 (Or.inl rfl),
   C10_thm.2.1 "https://huggingface.co/org/model" "boom" 4,
   C10_thm.2.2.1 "https://huggingface.co/bigscience/bloom" 200 4 (by norm_num)⟩
